import Mathlib

/-
Verification of the terminal habit-tracking calendar (src/main.rs).

The development shallowly embeds the program's data model and operations:
calendar dates (chrono `NaiveDate`), the habit log (`HashMap<NaiveDate, bool>`
modelled as a lookup function), the `App` state with its cursor/view-mode
state machine (`run_app`'s key dispatch), and the two renderers
(`HabitGraph::render_graph` for the year view, `MonthView::render` for the
month view), modelled as lists of buffer writes.

Dates are triples (year, month, day); a date's absolute day number `toRd`
(days since 1970-01-01, Howard Hinnant's civil-from-days formula, which is
what chrono's date arithmetic computes) grounds weekday computation and
"N days later/earlier" statements.  chrono's checked arithmetic only fails
outside the ±262000-year range, which no claim here exercises, so
`checked_add_days(n).unwrap()` / `succ_opt().unwrap()` are modelled as the
corresponding total date arithmetic on triples.
-/

namespace HabitTracker

/-- Gregorian leap-year test (the rule chrono's `NaiveDate` implements). -/
def isLeap (y : Int) : Bool := (y % 4 == 0 && y % 100 != 0) || (y % 400 == 0)

/-- Number of days in month `m` (1-12) of year `y`. -/
def monthLen (y : Int) (m : Nat) : Nat :=
  match m with
  | 1 => 31
  | 2 => if isLeap y then 29 else 28
  | 3 => 31
  | 4 => 30
  | 5 => 31
  | 6 => 30
  | 7 => 31
  | 8 => 31
  | 9 => 30
  | 10 => 31
  | 11 => 30
  | 12 => 31
  | _ => 0

/-- Model of chrono's `NaiveDate`: a proleptic Gregorian calendar date. -/
structure NaiveDate where
  year : Int
  month : Nat
  day : Nat
  deriving DecidableEq, Repr

/-- The date is a real Gregorian date (month 1-12, day within the month). -/
def NaiveDate.Valid (d : NaiveDate) : Prop :=
  1 ≤ d.month ∧ d.month ≤ 12 ∧ 1 ≤ d.day ∧ d.day ≤ monthLen d.year d.month

instance (d : NaiveDate) : Decidable d.Valid := by
  unfold NaiveDate.Valid; infer_instance

/-- chrono `NaiveDate::from_ymd_opt`. -/
def from_ymd_opt (y : Int) (m d : Nat) : Option NaiveDate :=
  if (NaiveDate.mk y m d).Valid then some (NaiveDate.mk y m d) else none

/-- Absolute day number of a date, with 1970-01-01 = 0 (Hinnant's
`days_from_civil`; `/` on `Int` is euclidean division, which for the
positive divisors used here is exactly the floor division the formula
requires). -/
def NaiveDate.toRd (dt : NaiveDate) : Int :=
  let y : Int := if dt.month ≤ 2 then dt.year - 1 else dt.year
  let m : Int := dt.month
  let d : Int := dt.day
  let era : Int := y / 400
  let yoe : Int := y - era * 400
  let doy : Int := (153 * (if 2 < dt.month then m - 3 else m + 9) + 2) / 5 + d - 1
  let doe : Int := yoe * 365 + yoe / 4 - yoe / 100 + doy
  era * 146097 + doe - 719468

/-- chrono `Weekday::num_days_from_sunday` of a date's weekday
(Sunday = 0 .. Saturday = 6); 1970-01-01 was a Thursday (= 4). -/
def NaiveDate.num_days_from_sunday (dt : NaiveDate) : Nat :=
  ((dt.toRd + 4) % 7).toNat

/-- chrono `Datelike::day0`: zero-based day of month. -/
def NaiveDate.day0 (dt : NaiveDate) : Nat := dt.day - 1

/-- chrono `NaiveDate::succ_opt().unwrap()`: the following calendar day. -/
def NaiveDate.succ (dt : NaiveDate) : NaiveDate :=
  if dt.day < monthLen dt.year dt.month then NaiveDate.mk dt.year dt.month (dt.day + 1)
  else if dt.month < 12 then NaiveDate.mk dt.year (dt.month + 1) 1
  else NaiveDate.mk (dt.year + 1) 1 1

/-- chrono `NaiveDate::pred_opt().unwrap()`: the preceding calendar day. -/
def NaiveDate.pred (dt : NaiveDate) : NaiveDate :=
  if 1 < dt.day then NaiveDate.mk dt.year dt.month (dt.day - 1)
  else if 1 < dt.month then NaiveDate.mk dt.year (dt.month - 1) (monthLen dt.year (dt.month - 1))
  else NaiveDate.mk (dt.year - 1) 12 31

/-- chrono `checked_add_days(Days::new(n)).unwrap()`: the date `n` days later. -/
def NaiveDate.addDays (dt : NaiveDate) : Nat → NaiveDate
  | 0 => dt
  | n + 1 => dt.succ.addDays n

/-- chrono `checked_sub_days(Days::new(n)).unwrap()`: the date `n` days earlier. -/
def NaiveDate.subDays (dt : NaiveDate) : Nat → NaiveDate
  | 0 => dt
  | n + 1 => dt.pred.subDays n

theorem isLeap_iff (y : Int) :
    isLeap y = true ↔ (y % 4 = 0 ∧ y % 100 ≠ 0) ∨ y % 400 = 0 := by
  simp [isLeap, and_comm]

theorem toRd_day_shift (y : Int) (m d : Nat) :
    (NaiveDate.mk y m d).toRd = (NaiveDate.mk y m 1).toRd + (d - 1 : Int) := by
  simp only [NaiveDate.toRd]
  split <;> omega

theorem monthLen_pos (y : Int) (m : Nat) (h1 : 1 ≤ m) (h2 : m ≤ 12) :
    1 ≤ monthLen y m := by
  rcases hb : isLeap y with _ | _ <;> interval_cases m <;> simp [monthLen, hb]

/-- Crossing from the last day of month `m` (m ≤ 11) to the first of `m + 1`
advances the absolute day number by one. -/
theorem toRd_month_step (y : Int) (m : Nat) (h1 : 1 ≤ m) (h2 : m ≤ 11) :
    (NaiveDate.mk y (m + 1) 1).toRd = (NaiveDate.mk y m (monthLen y m)).toRd + 1 := by
  have hleap := isLeap_iff y
  interval_cases m <;>
    · simp only [monthLen]
      rcases hb : isLeap y with _ | _ <;>
        · rw [hb] at hleap
          simp only [NaiveDate.toRd, if_true, if_false]
          simp only [Bool.false_eq_true, false_iff, true_iff, not_or, not_and, ne_eq,
            not_not] at hleap
          norm_num
          omega

/-- Crossing from December 31 of year `y` to January 1 of `y + 1` advances
the absolute day number by one. -/
theorem toRd_year_step (y : Int) :
    (NaiveDate.mk (y + 1) 1 1).toRd = (NaiveDate.mk y 12 31).toRd + 1 := by
  simp only [NaiveDate.toRd]
  norm_num
  omega

theorem succ_valid_toRd (d : NaiveDate) (h : d.Valid) :
    d.succ.Valid ∧ d.succ.toRd = d.toRd + 1 := by
  obtain ⟨Y, M, D⟩ := d
  have h' : 1 ≤ M ∧ M ≤ 12 ∧ 1 ≤ D ∧ D ≤ monthLen Y M := h
  obtain ⟨h1, h2, h3, h4⟩ := h'
  by_cases hlt : D < monthLen Y M
  · have hs : (NaiveDate.mk Y M D).succ = NaiveDate.mk Y M (D + 1) := by
      simp [NaiveDate.succ, hlt]
    rw [hs]
    constructor
    · show 1 ≤ M ∧ M ≤ 12 ∧ 1 ≤ D + 1 ∧ D + 1 ≤ monthLen Y M
      omega
    · rw [toRd_day_shift Y M (D + 1), toRd_day_shift Y M D]
      omega
  · by_cases hm : M < 12
    · have hd : D = monthLen Y M := by omega
      have hs : (NaiveDate.mk Y M D).succ = NaiveDate.mk Y (M + 1) 1 := by
        simp [NaiveDate.succ, hlt, hm]

      rw [hs, hd]
      constructor
      · show 1 ≤ M + 1 ∧ M + 1 ≤ 12 ∧ 1 ≤ 1 ∧ 1 ≤ monthLen Y (M + 1)
        exact ⟨by omega, by omega, le_refl 1, monthLen_pos Y (M + 1) (by omega) (by omega)⟩
      · exact toRd_month_step Y M h1 (by omega)
    · have hm12 : M = 12 := by omega
      subst hm12
      have hd : D = 31 := by
        simp only [monthLen] at h4 hlt
        omega
      subst hd
      have hs : (NaiveDate.mk Y 12 31).succ = NaiveDate.mk (Y + 1) 1 1 := by
        simp [NaiveDate.succ, monthLen]
      rw [hs]
      constructor
      · show 1 ≤ 1 ∧ 1 ≤ 12 ∧ 1 ≤ 1 ∧ 1 ≤ monthLen (Y + 1) 1
        simp [monthLen]
      · exact toRd_year_step Y

theorem pred_valid_toRd (d : NaiveDate) (h : d.Valid) :
    d.pred.Valid ∧ d.pred.toRd = d.toRd - 1 := by
  obtain ⟨Y, M, D⟩ := d
  have h' : 1 ≤ M ∧ M ≤ 12 ∧ 1 ≤ D ∧ D ≤ monthLen Y M := h
  obtain ⟨h1, h2, h3, h4⟩ := h'
  by_cases hd1 : 1 < D
  · have hs : (NaiveDate.mk Y M D).pred = NaiveDate.mk Y M (D - 1) := by
      simp [NaiveDate.pred, hd1]
    rw [hs]
    constructor
    · show 1 ≤ M ∧ M ≤ 12 ∧ 1 ≤ D - 1 ∧ D - 1 ≤ monthLen Y M
      omega
    · rw [toRd_day_shift Y M (D - 1), toRd_day_shift Y M D]
      omega
  · have hd : D = 1 := by omega
    subst hd
    by_cases hm1 : 1 < M
    · have hs : (NaiveDate.mk Y M 1).pred = NaiveDate.mk Y (M - 1) (monthLen Y (M - 1)) := by
        simp [NaiveDate.pred, hm1]
      rw [hs]
      have hstep := toRd_month_step Y (M - 1) (by omega) (by omega)
      have hmm : M - 1 + 1 = M := by omega
      rw [hmm] at hstep
      constructor
      · show 1 ≤ M - 1 ∧ M - 1 ≤ 12 ∧ 1 ≤ monthLen Y (M - 1) ∧
          monthLen Y (M - 1) ≤ monthLen Y (M - 1)
        exact ⟨by omega, by omega, monthLen_pos Y (M - 1) (by omega) (by omega), le_refl _⟩
      · omega
    · have hm : M = 1 := by omega
      subst hm
      have hs : (NaiveDate.mk Y 1 1).pred = NaiveDate.mk (Y - 1) 12 31 := by
        simp [NaiveDate.pred]
      rw [hs]
      have hstep := toRd_year_step (Y - 1)
      have hy : Y - 1 + 1 = Y := by omega
      rw [hy] at hstep
      constructor
      · show 1 ≤ 12 ∧ 12 ≤ 12 ∧ 1 ≤ 31 ∧ 31 ≤ monthLen (Y - 1) 12
        simp [monthLen]
      · omega

theorem addDays_valid_toRd (d : NaiveDate) (n : Nat) (h : d.Valid) :
    (d.addDays n).Valid ∧ (d.addDays n).toRd = d.toRd + n := by
  induction n generalizing d with
  | zero => simpa [NaiveDate.addDays] using h
  | succ k ih =>
    obtain ⟨hv, hr⟩ := succ_valid_toRd d h
    obtain ⟨hv2, hr2⟩ := ih d.succ hv
    refine ⟨hv2, ?_⟩
    simp only [NaiveDate.addDays]
    omega

theorem subDays_valid_toRd (d : NaiveDate) (n : Nat) (h : d.Valid) :
    (d.subDays n).Valid ∧ (d.subDays n).toRd = d.toRd - n := by
  induction n generalizing d with
  | zero => simpa [NaiveDate.subDays] using h
  | succ k ih =>
    obtain ⟨hv, hr⟩ := pred_valid_toRd d h
    obtain ⟨hv2, hr2⟩ := ih d.pred hv
    refine ⟨hv2, ?_⟩
    simp only [NaiveDate.subDays]
    omega

/-- The source's `enum ViewMode`. -/
inductive ViewMode where
  | Year : ViewMode
  | Month : ViewMode
  deriving DecidableEq, Repr

/-- The habit log `HashMap<NaiveDate, bool>`, modelled by its lookup
function (`None` = key absent). -/
def HabitLog : Type := NaiveDate → Option Bool

/-- The application state, `struct App`. -/
structure App where
  alcohol_log : HabitLog
  cursor : NaiveDate
  view_mode : ViewMode
  should_quit : Bool

/-- Source: `self.alcohol_log.entry(self.cursor).or_insert(false); *entry = !*entry`:
insert `false` when the key is absent, then negate the stored value. -/
def toggleEntry (log : HabitLog) (d : NaiveDate) : HabitLog :=
  fun x => if x = d then some (!((log d).getD false)) else log x

/-- Source `App::toggle_selected_day`. -/
def App.toggle_selected_day (a : App) : App :=
  { a with alcohol_log := toggleEntry a.alcohol_log a.cursor }

/-- Source `App::set_view_mode`. -/
def App.set_view_mode (a : App) (vm : ViewMode) : App :=
  { a with view_mode := vm }

/-- Source `App::move_cursor_left` (Year mode): `checked_sub_days(Days::new(7)).unwrap()`. -/
def App.move_cursor_left (a : App) : App :=
  { a with cursor := a.cursor.subDays 7 }

/-- Source `App::move_cursor_right` (Year mode): 7 days later. -/
def App.move_cursor_right (a : App) : App :=
  { a with cursor := a.cursor.addDays 7 }

/-- Source `App::move_cursor_up` (Year mode): 1 day earlier. -/
def App.move_cursor_up (a : App) : App :=
  { a with cursor := a.cursor.subDays 1 }

/-- Source `App::move_cursor_down` (Year mode): 1 day later. -/
def App.move_cursor_down (a : App) : App :=
  { a with cursor := a.cursor.addDays 1 }

/-- Source `App::move_cursor_left_month` (Month mode): 1 day earlier. -/
def App.move_cursor_left_month (a : App) : App :=
  { a with cursor := a.cursor.subDays 1 }

/-- Source `App::move_cursor_right_month` (Month mode): 1 day later. -/
def App.move_cursor_right_month (a : App) : App :=
  { a with cursor := a.cursor.addDays 1 }

/-- Source `App::move_cursor_up_month` (Month mode): 7 days earlier. -/
def App.move_cursor_up_month (a : App) : App :=
  { a with cursor := a.cursor.subDays 7 }

/-- Source `App::move_cursor_down_month` (Month mode): 7 days later. -/
def App.move_cursor_down_month (a : App) : App :=
  { a with cursor := a.cursor.addDays 7 }

/-- Source `App::next_month`: cursor jumps to the first day of the following month
(December rolls over to January of the next year).  The source builds the
date with `from_ymd_opt(year, next_month, 1).unwrap()`; the argument is a
valid date whenever the cursor is (proved in `page_keys_month_paging`), so
the construction is written directly. -/
def App.next_month (a : App) : App :=
  let year := a.cursor.year
  let month := a.cursor.month
  let nm := if month = 12 then 1 else month + 1
  let ny := if month = 12 then year + 1 else year
  { a with cursor := NaiveDate.mk ny nm 1 }

/-- Source `App::prev_month`: cursor jumps to the first day of the preceding month
(January rolls over to December of the previous year). -/
def App.prev_month (a : App) : App :=
  let year := a.cursor.year
  let month := a.cursor.month
  let pm := if month = 1 then 12 else month - 1
  let py := if month = 1 then year - 1 else year
  { a with cursor := NaiveDate.mk py pm 1 }

/-- The key events `run_app` distinguishes. -/
inductive KeyCode where
  | charQ : KeyCode
  | charSpace : KeyCode
  | left : KeyCode
  | right : KeyCode
  | up : KeyCode
  | down : KeyCode
  | pageUp : KeyCode
  | pageDown : KeyCode
  | charY : KeyCode
  | charM : KeyCode
  | other : KeyCode
  deriving DecidableEq, Repr

/-- One iteration of `run_app`'s key dispatch (`match key.code`). -/
def handleKey (k : KeyCode) (a : App) : App :=
  match k with
  | .charQ => { a with should_quit := true }
  | .charSpace => a.toggle_selected_day
  | .left =>
    match a.view_mode with
    | .Year => a.move_cursor_left
    | .Month => a.move_cursor_left_month
  | .right =>
    match a.view_mode with
    | .Year => a.move_cursor_right
    | .Month => a.move_cursor_right_month
  | .up =>
    match a.view_mode with
    | .Year => a.move_cursor_up
    | .Month => a.move_cursor_up_month
  | .down =>
    match a.view_mode with
    | .Year => a.move_cursor_down
    | .Month => a.move_cursor_down_month
  | .pageUp =>
    match a.view_mode with
    | .Month => a.prev_month
    | .Year => a
  | .pageDown =>
    match a.view_mode with
    | .Month => a.next_month
    | .Year => a
  | .charY => a.set_view_mode ViewMode.Year
  | .charM => a.set_view_mode ViewMode.Month
  | .other => a

/-- A run of the event loop over a list of key events. -/
def handleKeys (ks : List KeyCode) (a : App) : App :=
  ks.foldl (fun s k => handleKey k s) a

/-- The ratatui colors the program uses. -/
inductive Color where
  | Red : Color
  | Green : Color
  | Yellow : Color
  | Cyan : Color
  | White : Color
  | Black : Color
  | Rgb : Nat → Nat → Nat → Color
  | Reset : Color
  deriving DecidableEq, Repr

/-- ratatui `Rect` (fields are `u16` in the source; the claims only involve
small in-range values, so they are carried as `Nat` with the one fallible
`u16` subtraction modelled explicitly by `checkedSub`). -/
structure Rect where
  x : Nat
  y : Nat
  width : Nat
  height : Nat
  deriving DecidableEq, Repr

/-- Rust `u16` subtraction: underflow panics in a debug build (and wraps in
release), so the result is `none` when the subtrahend is larger. -/
def checkedSub (a b : Nat) : Option Nat :=
  if b ≤ a then some (a - b) else none

/-- ratatui `Block::inner` for a block with `Borders::ALL`: one cell trimmed
from each side (width/height shrink by 2, saturating). -/
def Rect.inner (r : Rect) : Rect :=
  Rect.mk (r.x + 1) (r.y + 1) (r.width - 2) (r.height - 2)

/-- One `buf.set_string` call: position, text, foreground and (optional)
background color. -/
structure BufWrite where
  x : Nat
  y : Nat
  text : String
  fg : Color
  bg : Option Color
  deriving DecidableEq, Repr

/-- Source `NaiveDate::from_ymd_opt(year, month, 1).unwrap()` — the first day of
month `m` of year `y` (`render_graph` line 313, `MonthView::render` line 376). -/
def first_day_of_month (y : Int) (m : Nat) : NaiveDate := NaiveDate.mk y m 1

/-- The `(next_month_year, next_month)` rollover pair (lines 314-318 and
377-381): December is followed by January of the next year. -/
def next_month_pair (y : Int) (m : Nat) : Int × Nat :=
  if m = 12 then (y + 1, 1) else (y, m + 1)

/-- The `(year, prev_month)` rollover pair of `App::prev_month`
(lines 128-133): January is preceded by December of the previous year. -/
def prev_month_pair (y : Int) (m : Nat) : Int × Nat :=
  if m = 1 then (y - 1, 12) else (y, m - 1)

/-- Source `last_day_of_month` (lines 319-323 and 382-386): the first day of the
following month, minus one day (`checked_sub_days(Days::new(1)).unwrap()`). -/
def last_day_of_month (y : Int) (m : Nat) : NaiveDate :=
  (first_day_of_month (next_month_pair y m).1 (next_month_pair y m).2).pred

/-- The year-view cell position of a date (lines 327-328):
`week_number = (day0 + first_of_month_weekday) / 7` (the row inside the
month block) and `day_of_week = weekday with Sunday = 0` (the column,
drawn at `x = inner.x + day_of_week * 2`). Returned as
(week, weekday) matching the spec's `yearCellPosition` tuple order. -/
def yearCellPosition (d : NaiveDate) : Nat × Nat :=
  ((d.day0 + (first_day_of_month d.year d.month).num_days_from_sunday) / 7,
    d.num_days_from_sunday)

/-- The base symbol and color of a year-view cell (lines 330-334), from the
log lookup: logged `true` = red filled, logged `false` = green filled,
absent = dim hollow. -/
def yearBaseCell : Option Bool → String × Color
  | some true => ("■", Color.Red)
  | some false => ("■", Color.Green)
  | none => ("□", Color.Rgb 50 50 50)

/-- The displayed symbol and color of a year-view cell (lines 330-346): the
base cell, then the first-of-month, today and cursor overlays applied in
that order, each overwriting the previous color. -/
def yearCellStyle (data : HabitLog) (today cursor d : NaiveDate) : String × Color :=
  let base := yearBaseCell (data d)
  let c1 := if d.day = 1 then Color.Yellow else base.2
  let c2 := if d = today then Color.Cyan else c1
  let c3 := if d = cursor then Color.White else c2
  (base.1, c3)

/-- The `set_string` calls of `render_graph`'s day loop (lines 325-356) for
month `m`, given that month's post-border inner area: one write per day
from the 1st to `last_day_of_month`. -/
def monthCellWrites (data : HabitLog) (today cursor : NaiveDate) (inner : Rect)
    (y : Int) (m : Nat) : List BufWrite :=
  (List.range (last_day_of_month y m).day).map (fun j0 =>
    let d := NaiveDate.mk y m (j0 + 1)
    let pos := yearCellPosition d
    let sc := yearCellStyle data today cursor d
    BufWrite.mk (inner.x + pos.2 * 2) (inner.y + pos.1) sc.1 sc.2 none)

/-- Source `HabitGraph::render_graph` (lines 280-358): the cell writes of all 12
months of the cursor's year.  The horizontal `Ratio(1,12)` layout and the
month blocks' borders belong to the external drawing library; the inner
area of month `m` is the parameter `monthInner m`. -/
def render_graph (data : HabitLog) (today cursor : NaiveDate)
    (monthInner : Nat → Rect) : List BufWrite :=
  ((List.range 12).map (fun mi =>
    monthCellWrites data today cursor (monthInner (mi + 1)) cursor.year (mi + 1))).flatten

/-- Source `impl Widget for HabitGraph` (lines 267-276): if the area is narrower
than 53*2 cells or shorter than 8 rows, nothing is rendered; otherwise
`render_graph` runs. -/
def HabitGraph.render (data : HabitLog) (today cursor : NaiveDate)
    (monthInner : Nat → Rect) (area : Rect) : List BufWrite :=
  if area.width < 53 * 2 ∨ area.height < 8 then []
  else render_graph data today cursor monthInner

/-- The `"\x7b:2\x7d"` day-number formatting of the month view (line 438). -/
def pad2 (n : Nat) : String :=
  if n < 10 then " " ++ toString n else toString n

/-- The weekday header writes of the month view (lines 401-409); they use
`Style::default()`, whose foreground is the terminal's reset color. -/
def dayLabelWrites (calX calY : Nat) : List BufWrite :=
  (List.enum ["Sun", "Mon", "Tue", "Wed", "Thu", "Fri", "Sat"]).map (fun li =>
    BufWrite.mk (calX + li.1 * 4) calY li.2 Color.Reset none)

/-- The day-cell writes of the month view's day loop (lines 411-446): per
day, the data glyph and then the two-character day number (inverted
black-on-white when the day is the cursor). -/
def monthViewCellWrites (data : HabitLog) (today cursor : NaiveDate)
    (calX calY : Nat) : List BufWrite :=
  let y := cursor.year
  let m := cursor.month
  let first := first_day_of_month y m
  ((List.range (last_day_of_month y m).day).map (fun j0 =>
    let d := NaiveDate.mk y m (j0 + 1)
    let week_day := d.num_days_from_sunday
    let week_number := (d.day0 + first.num_days_from_sunday) / 7
    let sc :=
      match data d with
      | some true => ("■", Color.Red)
      | some false => ("■", Color.Green)
      | none => (" ", Color.Rgb 50 50 50)
    let color := if d = today then Color.Cyan else sc.2
    [BufWrite.mk (calX + week_day * 4) (calY + 2 + week_number) sc.1 color none,
      BufWrite.mk (calX + week_day * 4) (calY + 2 + week_number) (pad2 d.day)
        (if d = cursor then Color.Black else Color.White)
        (if d = cursor then some Color.White else none)])).flatten

/-- Source `MonthView::render` (lines 366-447).  The centering computation
`inner_area.x + (inner_area.width - 28) / 2` (line 395) subtracts in `u16`;
when the post-border inner width is below 28 the subtraction underflows
(debug panic / release wrap-around), modelled as `none`.  The title
paragraph is drawn by the external `Paragraph` widget and is not part of
the write list. -/
def MonthView.render (data : HabitLog) (today cursor : NaiveDate)
    (area : Rect) : Option (List BufWrite) :=
  let inner := area.inner
  match checkedSub inner.width 28 with
  | none => none
  | some w =>
    let calX := inner.x + w / 2
    let calY := inner.y + 2
    some (dayLabelWrites calX calY ++ monthViewCellWrites data today cursor calX calY)

/-- Modelled from the spec (§4.1, claim C1's reading of `yearCellPosition`):
the "ISO-week-like running count of Saturdays passed since January 1 of the
date's year" — the number of Saturdays in [January 1, d). -/
def saturdaysSinceJan1 (d : NaiveDate) : Nat :=
  let jan1 := NaiveDate.mk d.year 1 1
  (List.range (d.toRd - jan1.toRd).toNat).countP
    (fun k => (jan1.toRd + k + 4) % 7 == 6)

/-- The month-relative analogue: the number of Saturdays passed while
scanning from the first of `d`'s month to `d` (exclusive). -/
def saturdaysSinceMonthStart (d : NaiveDate) : Nat :=
  (List.range d.day0).countP
    (fun k => (NaiveDate.mk d.year d.month (k + 1)).num_days_from_sunday == 6)

theorem last_day_eq (y : Int) (m : Nat) (h1 : 1 ≤ m) (h2 : m ≤ 12) :
    last_day_of_month y m = NaiveDate.mk y m (monthLen y m) := by
  by_cases hm : m = 12
  · subst hm
    simp [last_day_of_month, next_month_pair, first_day_of_month, NaiveDate.pred, monthLen]
  · simp only [last_day_of_month, next_month_pair, first_day_of_month, hm, if_false]
    simp [NaiveDate.pred, show (1 : Nat) < m + 1 from by omega]

theorem last_day_valid (y : Int) (m : Nat) (h1 : 1 ≤ m) (h2 : m ≤ 12) :
    (last_day_of_month y m).Valid := by
  rw [last_day_eq y m h1 h2]
  exact ⟨h1, h2, monthLen_pos y m h1 h2, le_refl _⟩

/-- The last day of a month is the day before the first of the following
month, in absolute day numbers. -/
theorem toRd_last_add_one (y : Int) (m : Nat) (h1 : 1 ≤ m) (h2 : m ≤ 12) :
    (last_day_of_month y m).toRd + 1 =
      (first_day_of_month (next_month_pair y m).1 (next_month_pair y m).2).toRd := by
  rw [last_day_eq y m h1 h2]
  by_cases hm : m = 12
  · subst hm
    have := toRd_year_step y
    simp only [next_month_pair, first_day_of_month, monthLen, if_true, reduceIte]
    omega
  · simp only [next_month_pair, hm, if_false, first_day_of_month]
    exact (toRd_month_step y m h1 (by omega)).symm

/-- C7: for every year, the month-bounds computation of `render_graph` and
`MonthView::render` yields `lastDate` = the day before the first day of the
following month; for December it is December 31 of the same year via the
January-of-next-year rollover, and for m < 12 it is the day before the 1st
of month m + 1. -/
theorem month_bounds_last_date (y : Int) (m : Nat) (h1 : 1 ≤ m) (h2 : m ≤ 12) :
    last_day_of_month y 12 = NaiveDate.mk y 12 31 ∧
    (last_day_of_month y 12).toRd + 1 = (NaiveDate.mk (y + 1) 1 1).toRd ∧
    (last_day_of_month y m).Valid ∧
    (last_day_of_month y m).toRd + 1 =
      (first_day_of_month (next_month_pair y m).1 (next_month_pair y m).2).toRd ∧
    (m < 12 → (last_day_of_month y m).toRd + 1 = (NaiveDate.mk y (m + 1) 1).toRd) := by
  refine ⟨?_, ?_, last_day_valid y m h1 h2, toRd_last_add_one y m h1 h2, ?_⟩
  · rw [last_day_eq y 12 (by omega) (le_refl 12)]
    simp [monthLen]
  · have h := toRd_last_add_one y 12 (by omega) (le_refl 12)
    simpa [next_month_pair, first_day_of_month] using h
  · intro hlt
    have h := toRd_last_add_one y m h1 h2
    simpa [next_month_pair, show m ≠ 12 from by omega, first_day_of_month] using h

theorem month_bounds_last_date_witness :
    last_day_of_month 2024 12 = NaiveDate.mk 2024 12 31 ∧
    (last_day_of_month 2024 12).toRd + 1 = (NaiveDate.mk (2024 + 1) 1 1).toRd ∧
    (last_day_of_month 2024 2).Valid ∧
    (last_day_of_month 2024 2).toRd + 1 =
      (first_day_of_month (next_month_pair 2024 2).1 (next_month_pair 2024 2).2).toRd ∧
    (2 < 12 → (last_day_of_month 2024 2).toRd + 1 = (NaiveDate.mk 2024 (2 + 1) 1).toRd) :=
  month_bounds_last_date 2024 2 (by norm_num) (by norm_num)

/-- C3 counterexample: toggling a never-touched day twice does not restore
the original log: from the empty log, two toggles at a date leave the key
present (mapped to `false`), while the original log had no key at all. -/
theorem toggle_twice_from_absent_changes_log :
    toggleEntry (toggleEntry (fun _ => none) (NaiveDate.mk 2024 3 15)) (NaiveDate.mk 2024 3 15) ≠
      (fun _ => none) := by
  intro hcontra
  have h2 := congrFun hcontra (NaiveDate.mk 2024 3 15)
  simp [toggleEntry] at h2

/-- C3 (amended): if the date is already present in the log, toggling it
twice returns the log to exactly its original contents. -/
theorem toggle_twice_id_of_present (log : HabitLog) (d : NaiveDate) (b : Bool)
    (h : log d = some b) :
    toggleEntry (toggleEntry log d) d = log := by
  funext x
  by_cases hx : x = d
  · subst hx
    simp [toggleEntry, h]
  · simp [toggleEntry, hx]

theorem toggle_twice_id_of_present_witness :
    toggleEntry
      (toggleEntry (toggleEntry (fun _ => none) (NaiveDate.mk 2024 3 15)) (NaiveDate.mk 2024 3 15))
      (NaiveDate.mk 2024 3 15) =
      toggleEntry (fun _ => none) (NaiveDate.mk 2024 3 15) :=
  toggle_twice_id_of_present (toggleEntry (fun _ => none) (NaiveDate.mk 2024 3 15))
    (NaiveDate.mk 2024 3 15) true (by decide)

/-- C4: the arrow keys move the cursor by exactly the deltas of the spec's
table (Year mode: left/right = ∓7 days, up/down = ∓1 day; Month mode:
left/right = ∓1 day, up/down = ∓7 days), leaving the log, view mode and
quit flag unchanged; the `addDays`/`subDays` results are grounded as exact
±n shifts of the absolute day number. -/
theorem arrow_key_deltas (a : App) (h : a.cursor.Valid) :
    (a.view_mode = ViewMode.Year →
      handleKey KeyCode.left a = { a with cursor := a.cursor.subDays 7 } ∧
      handleKey KeyCode.right a = { a with cursor := a.cursor.addDays 7 } ∧
      handleKey KeyCode.up a = { a with cursor := a.cursor.subDays 1 } ∧
      handleKey KeyCode.down a = { a with cursor := a.cursor.addDays 1 }) ∧
    (a.view_mode = ViewMode.Month →
      handleKey KeyCode.left a = { a with cursor := a.cursor.subDays 1 } ∧
      handleKey KeyCode.right a = { a with cursor := a.cursor.addDays 1 } ∧
      handleKey KeyCode.up a = { a with cursor := a.cursor.subDays 7 } ∧
      handleKey KeyCode.down a = { a with cursor := a.cursor.addDays 7 }) ∧
    (a.cursor.subDays 7).toRd = a.cursor.toRd - 7 ∧
    (a.cursor.addDays 7).toRd = a.cursor.toRd + 7 ∧
    (a.cursor.subDays 1).toRd = a.cursor.toRd - 1 ∧
    (a.cursor.addDays 1).toRd = a.cursor.toRd + 1 := by
  refine ⟨?_, ?_, ?_, ?_, ?_, ?_⟩
  · intro hv
    refine ⟨?_, ?_, ?_, ?_⟩ <;>
      simp [handleKey, hv, App.move_cursor_left, App.move_cursor_right,
        App.move_cursor_up, App.move_cursor_down]
  · intro hv
    refine ⟨?_, ?_, ?_, ?_⟩ <;>
      simp [handleKey, hv, App.move_cursor_left_month, App.move_cursor_right_month,
        App.move_cursor_up_month, App.move_cursor_down_month]
  · have hh := subDays_valid_toRd a.cursor 7 h
    omega
  · have hh := addDays_valid_toRd a.cursor 7 h
    omega
  · have hh := subDays_valid_toRd a.cursor 1 h
    omega
  · have hh := addDays_valid_toRd a.cursor 1 h
    omega

theorem arrow_key_deltas_witness :
    (App.mk (fun _ => none) (NaiveDate.mk 2024 3 15) ViewMode.Year false).view_mode = ViewMode.Year ∧
    ((App.mk (fun _ => none) (NaiveDate.mk 2024 3 15) ViewMode.Year false).cursor.addDays 7).toRd =
      (App.mk (fun _ => none) (NaiveDate.mk 2024 3 15) ViewMode.Year false).cursor.toRd + 7 :=
  ⟨rfl, ((arrow_key_deltas (App.mk (fun _ => none) (NaiveDate.mk 2024 3 15) ViewMode.Year false)
    (by decide)).2.2.2.1)⟩

/-- C8: the year-view overlay precedence ends with the cursor: a cell equal
to the cursor is white regardless of the log, today or first-of-month
status; otherwise today's cell is cyan, otherwise a first-of-month cell is
yellow, and otherwise the base has-data color shows. -/
theorem cursor_highlight_precedence (data : HabitLog) (today cursor d : NaiveDate) :
    (d = cursor → (yearCellStyle data today cursor d).2 = Color.White) ∧
    (d ≠ cursor → d = today → (yearCellStyle data today cursor d).2 = Color.Cyan) ∧
    (d ≠ cursor → d ≠ today → d.day = 1 →
      (yearCellStyle data today cursor d).2 = Color.Yellow) ∧
    (d ≠ cursor → d ≠ today → d.day ≠ 1 →
      (yearCellStyle data today cursor d).2 = (yearBaseCell (data d)).2) := by
  refine ⟨?_, ?_, ?_, ?_⟩
  · intro h1
    simp [yearCellStyle, h1]
  · intro h1 h2
    subst h2
    simp [yearCellStyle, h1]
  · intro h1 h2 h3
    simp [yearCellStyle, h1, h2, h3]
  · intro h1 h2 h3
    simp [yearCellStyle, h1, h2, h3]

theorem cursor_highlight_precedence_witness :
    ((NaiveDate.mk 2024 3 1) = (NaiveDate.mk 2024 3 1) →
      (yearCellStyle (fun x => if x = NaiveDate.mk 2024 3 1 then some true else none)
        (NaiveDate.mk 2024 3 1) (NaiveDate.mk 2024 3 1) (NaiveDate.mk 2024 3 1)).2 =
        Color.White) ∧
    ((NaiveDate.mk 2024 3 1) ≠ (NaiveDate.mk 2024 3 1) →
      (NaiveDate.mk 2024 3 1) = (NaiveDate.mk 2024 3 1) →
      (yearCellStyle (fun x => if x = NaiveDate.mk 2024 3 1 then some true else none)
        (NaiveDate.mk 2024 3 1) (NaiveDate.mk 2024 3 1) (NaiveDate.mk 2024 3 1)).2 =
        Color.Cyan) ∧
    ((NaiveDate.mk 2024 3 1) ≠ (NaiveDate.mk 2024 3 1) →
      (NaiveDate.mk 2024 3 1) ≠ (NaiveDate.mk 2024 3 1) →
      (NaiveDate.mk 2024 3 1).day = 1 →
      (yearCellStyle (fun x => if x = NaiveDate.mk 2024 3 1 then some true else none)
        (NaiveDate.mk 2024 3 1) (NaiveDate.mk 2024 3 1) (NaiveDate.mk 2024 3 1)).2 =
        Color.Yellow) ∧
    ((NaiveDate.mk 2024 3 1) ≠ (NaiveDate.mk 2024 3 1) →
      (NaiveDate.mk 2024 3 1) ≠ (NaiveDate.mk 2024 3 1) →
      (NaiveDate.mk 2024 3 1).day ≠ 1 →
      (yearCellStyle (fun x => if x = NaiveDate.mk 2024 3 1 then some true else none)
        (NaiveDate.mk 2024 3 1) (NaiveDate.mk 2024 3 1) (NaiveDate.mk 2024 3 1)).2 =
        (yearBaseCell ((fun x => if x = NaiveDate.mk 2024 3 1 then some true else none)
          (NaiveDate.mk 2024 3 1))).2) :=
  cursor_highlight_precedence (fun x => if x = NaiveDate.mk 2024 3 1 then some true else none)
    (NaiveDate.mk 2024 3 1) (NaiveDate.mk 2024 3 1) (NaiveDate.mk 2024 3 1)

/-- No key event ever removes a present key from the habit log: toggling
rewrites the value at the cursor and every other handler leaves the log
untouched. -/
theorem handleKey_preserves_key (k : KeyCode) (a : App) (d : NaiveDate)
    (h : a.alcohol_log d ≠ none) : (handleKey k a).alcohol_log d ≠ none := by
  cases k with
  | charQ => simpa [handleKey] using h
  | charSpace =>
    simp only [handleKey, App.toggle_selected_day, toggleEntry]
    by_cases hd : d = a.cursor
    · simp [hd]
    · simpa [hd] using h
  | left =>
    cases hv : a.view_mode <;>
      simpa [handleKey, hv, App.move_cursor_left, App.move_cursor_left_month] using h
  | right =>
    cases hv : a.view_mode <;>
      simpa [handleKey, hv, App.move_cursor_right, App.move_cursor_right_month] using h
  | up =>
    cases hv : a.view_mode <;>
      simpa [handleKey, hv, App.move_cursor_up, App.move_cursor_up_month] using h
  | down =>
    cases hv : a.view_mode <;>
      simpa [handleKey, hv, App.move_cursor_down, App.move_cursor_down_month] using h
  | pageUp =>
    cases hv : a.view_mode <;>
      simpa [handleKey, hv, App.prev_month] using h
  | pageDown =>
    cases hv : a.view_mode <;>
      simpa [handleKey, hv, App.next_month] using h
  | charY => simpa [handleKey, App.set_view_mode] using h
  | charM => simpa [handleKey, App.set_view_mode] using h
  | other => simpa [handleKey] using h

theorem handleKeys_preserves_key (ks : List KeyCode) (a : App) (d : NaiveDate)
    (h : a.alcohol_log d ≠ none) : (handleKeys ks a).alcohol_log d ≠ none := by
  induction ks generalizing a with
  | nil => simpa [handleKeys] using h
  | cons k ks ih =>
    show (handleKeys ks (handleKey k a)).alcohol_log d ≠ none
    exact ih (handleKey k a) (handleKey_preserves_key k a d h)

/-- C6: toggling the cursor's date inserts `true` when the date is absent
and flips the stored boolean when present, and a key once present in the
log is never removed by any sequence of key events (a day toggled off
stays stored as `some false`). -/
theorem toggle_semantics_and_key_persistence (a : App) (d : NaiveDate) (b : Bool)
    (ks : List KeyCode) :
    (a.alcohol_log a.cursor = none →
      (a.toggle_selected_day).alcohol_log a.cursor = some true) ∧
    (a.alcohol_log a.cursor = some b →
      (a.toggle_selected_day).alcohol_log a.cursor = some (!b)) ∧
    (a.alcohol_log d ≠ none → (handleKeys ks a).alcohol_log d ≠ none) := by
  refine ⟨?_, ?_, ?_⟩
  · intro h
    simp [App.toggle_selected_day, toggleEntry, h]
  · intro h
    simp [App.toggle_selected_day, toggleEntry, h]
  · exact handleKeys_preserves_key ks a d

theorem toggle_semantics_and_key_persistence_witness :
    ((App.mk (fun x => if x = NaiveDate.mk 2024 3 15 then some true else none)
        (NaiveDate.mk 2024 3 15) ViewMode.Year false).alcohol_log
        (App.mk (fun x => if x = NaiveDate.mk 2024 3 15 then some true else none)
          (NaiveDate.mk 2024 3 15) ViewMode.Year false).cursor = none →
      ((App.mk (fun x => if x = NaiveDate.mk 2024 3 15 then some true else none)
        (NaiveDate.mk 2024 3 15) ViewMode.Year false).toggle_selected_day).alcohol_log
        (App.mk (fun x => if x = NaiveDate.mk 2024 3 15 then some true else none)
          (NaiveDate.mk 2024 3 15) ViewMode.Year false).cursor = some true) ∧
    ((App.mk (fun x => if x = NaiveDate.mk 2024 3 15 then some true else none)
        (NaiveDate.mk 2024 3 15) ViewMode.Year false).alcohol_log
        (App.mk (fun x => if x = NaiveDate.mk 2024 3 15 then some true else none)
          (NaiveDate.mk 2024 3 15) ViewMode.Year false).cursor = some true →
      ((App.mk (fun x => if x = NaiveDate.mk 2024 3 15 then some true else none)
        (NaiveDate.mk 2024 3 15) ViewMode.Year false).toggle_selected_day).alcohol_log
        (App.mk (fun x => if x = NaiveDate.mk 2024 3 15 then some true else none)
          (NaiveDate.mk 2024 3 15) ViewMode.Year false).cursor = some (!true)) ∧
    ((App.mk (fun x => if x = NaiveDate.mk 2024 3 15 then some true else none)
        (NaiveDate.mk 2024 3 15) ViewMode.Year false).alcohol_log (NaiveDate.mk 2024 3 15) ≠ none →
      (handleKeys [KeyCode.charSpace, KeyCode.left, KeyCode.charM, KeyCode.charSpace]
        (App.mk (fun x => if x = NaiveDate.mk 2024 3 15 then some true else none)
          (NaiveDate.mk 2024 3 15) ViewMode.Year false)).alcohol_log
        (NaiveDate.mk 2024 3 15) ≠ none) :=
  toggle_semantics_and_key_persistence
    (App.mk (fun x => if x = NaiveDate.mk 2024 3 15 then some true else none)
      (NaiveDate.mk 2024 3 15) ViewMode.Year false)
    (NaiveDate.mk 2024 3 15) true
    [KeyCode.charSpace, KeyCode.left, KeyCode.charM, KeyCode.charSpace]

/-- C10: `MonthView::render` has no minimum-size guard: whenever the inner
width after the border is below 28, the `u16` subtraction in
`(inner_area.width - 28) / 2` underflows and rendering is not total
(`none`); with width at least 28 it renders the header and the month grid. -/
theorem month_view_missing_guard_underflow (data : HabitLog) (today cursor : NaiveDate)
    (area : Rect) :
    (area.inner.width < 28 → MonthView.render data today cursor area = none) ∧
    (28 ≤ area.inner.width →
      MonthView.render data today cursor area =
        some (dayLabelWrites (area.inner.x + (area.inner.width - 28) / 2) (area.inner.y + 2) ++
          monthViewCellWrites data today cursor
            (area.inner.x + (area.inner.width - 28) / 2) (area.inner.y + 2))) := by
  constructor
  · intro h
    have hc : checkedSub area.inner.width 28 = none := by
      unfold checkedSub
      rw [if_neg (by omega)]
    simp only [MonthView.render]
    rw [hc]
  · intro h
    have hc : checkedSub area.inner.width 28 = some (area.inner.width - 28) := by
      unfold checkedSub
      rw [if_pos h]
    simp only [MonthView.render]
    rw [hc]

/-- Counting argument behind the week formula: for a month whose first day
has absolute day number `T`, the quotient `(n + weekday(first)) / 7` equals
the number of Saturdays among the `n` days following the first. -/
theorem count_sat (T : Int) (n : Nat) :
    (n + ((T + 4) % 7).toNat) / 7 =
      (List.range n).countP (fun (k : Nat) => ((T + (k : Int) + 4) % 7).toNat == 6) := by
  induction n with
  | zero =>
    simp
    omega
  | succ m ih =>
    rw [List.range_succ, List.countP_append, ← ih]
    simp only [List.countP_cons, List.countP_nil, beq_iff_eq]
    by_cases hs : ((T + (m : Int) + 4) % 7).toNat = 6
    · rw [if_pos hs]
      omega
    · rw [if_neg hs]
      omega

/-- The weekday predicate of `saturdaysSinceMonthStart`, rewritten through
`toRd_day_shift`. -/
theorem sat_pred_eq (y : Int) (m : Nat) :
    (fun (k : Nat) => (NaiveDate.mk y m (k + 1)).num_days_from_sunday == 6) =
      (fun (k : Nat) => (((NaiveDate.mk y m 1).toRd + (k : Int) + 4) % 7).toNat == 6) := by
  funext k
  have harg : ((NaiveDate.mk y m (k + 1)).toRd + 4) % 7 =
      ((NaiveDate.mk y m 1).toRd + k + 4) % 7 := by
    rw [toRd_day_shift y m (k + 1)]
    congr 1
    push_cast
    ring
  simp [NaiveDate.num_days_from_sunday, harg]

/-- C1 (amended): the year-view cell position maps a date to
weekday = weekday index with Sunday = 0, and week = the running count of
Saturdays crossed while scanning forward from the first of the date's
MONTH — the week coordinate is month-relative (the year view is twelve
side-by-side month grids), not a running count from January 1. -/
theorem yearCellPosition_month_relative (d : NaiveDate) (h : d.Valid) :
    yearCellPosition d = (saturdaysSinceMonthStart d, d.num_days_from_sunday) := by
  obtain ⟨Y, M, D⟩ := d
  simp only [yearCellPosition, saturdaysSinceMonthStart, Prod.mk.injEq, and_true]
  show (D - 1 + (NaiveDate.mk Y M 1).num_days_from_sunday) / 7 =
    (List.range (D - 1)).countP
      (fun k => (NaiveDate.mk Y M (k + 1)).num_days_from_sunday == 6)
  rw [sat_pred_eq Y M, ← count_sat (NaiveDate.mk Y M 1).toRd (D - 1)]
  rfl

theorem yearCellPosition_month_relative_witness :
    yearCellPosition (NaiveDate.mk 2024 3 15) =
      (saturdaysSinceMonthStart (NaiveDate.mk 2024 3 15),
        (NaiveDate.mk 2024 3 15).num_days_from_sunday) :=
  yearCellPosition_month_relative (NaiveDate.mk 2024 3 15) (by decide)

/-- C1 counterexample: the week component of the year-view cell position is
NOT the running count of Saturdays since January 1: at February 1, 2024 the
code computes week 0 (the first row of February's month block) while four
Saturdays have passed since January 1. -/
theorem yearCellPosition_not_year_relative :
    (NaiveDate.mk 2024 2 1).Valid ∧
    (yearCellPosition (NaiveDate.mk 2024 2 1)).1 = 0 ∧
    saturdaysSinceJan1 (NaiveDate.mk 2024 2 1) = 4 ∧
    (yearCellPosition (NaiveDate.mk 2024 2 1)).1 ≠
      saturdaysSinceJan1 (NaiveDate.mk 2024 2 1) := by
  decide

/-- C2 (amended): while the cursor's date advances day by day WITHIN ONE
MONTH, the week component of the year-view cell position is monotonically
non-decreasing and strictly increases exactly when the day being left is a
Saturday; at month boundaries the week component resets to 0 instead. -/
theorem week_monotone_within_month (d : NaiveDate) (h : d.Valid)
    (hin : d.day < monthLen d.year d.month) :
    (yearCellPosition d).1 ≤ (yearCellPosition d.succ).1 ∧
    ((yearCellPosition d).1 < (yearCellPosition d.succ).1 ↔
      d.num_days_from_sunday = 6) := by
  obtain ⟨Y, M, D⟩ := d
  have h' : 1 ≤ M ∧ M ≤ 12 ∧ 1 ≤ D ∧ D ≤ monthLen Y M := h
  have hin' : D < monthLen Y M := hin
  have hs : (NaiveDate.mk Y M D).succ = NaiveDate.mk Y M (D + 1) := by
    simp [NaiveDate.succ, hin']
  rw [hs]
  have hshift := toRd_day_shift Y M D
  simp only [yearCellPosition, first_day_of_month, NaiveDate.day0,
    NaiveDate.num_days_from_sunday]
  show (D - 1 + (((NaiveDate.mk Y M 1).toRd + 4) % 7).toNat) / 7 ≤
      (D + 1 - 1 + (((NaiveDate.mk Y M 1).toRd + 4) % 7).toNat) / 7 ∧
    ((D - 1 + (((NaiveDate.mk Y M 1).toRd + 4) % 7).toNat) / 7 <
      (D + 1 - 1 + (((NaiveDate.mk Y M 1).toRd + 4) % 7).toNat) / 7 ↔
      (((NaiveDate.mk Y M D).toRd + 4) % 7).toNat = 6)
  rw [hshift]
  omega

theorem week_monotone_within_month_witness :
    (yearCellPosition (NaiveDate.mk 2024 3 15)).1 ≤
      (yearCellPosition (NaiveDate.mk 2024 3 15).succ).1 ∧
    ((yearCellPosition (NaiveDate.mk 2024 3 15)).1 <
      (yearCellPosition (NaiveDate.mk 2024 3 15).succ).1 ↔
      (NaiveDate.mk 2024 3 15).num_days_from_sunday = 6) :=
  week_monotone_within_month (NaiveDate.mk 2024 3 15) (by decide) (by decide)

/-- C2 counterexample: the week component is not monotone over a whole
year: stepping from January 31, 2024 (a Wednesday, week 4 of January's
block) to February 1, 2024 (week 0 of February's block) strictly decreases
it, although no Saturday is being left. -/
theorem week_decreases_at_month_boundary :
    (NaiveDate.mk 2024 1 31).Valid ∧
    (NaiveDate.mk 2024 1 31).succ = NaiveDate.mk 2024 2 1 ∧
    (NaiveDate.mk 2024 1 31).num_days_from_sunday ≠ 6 ∧
    ¬((yearCellPosition (NaiveDate.mk 2024 1 31)).1 ≤
      (yearCellPosition (NaiveDate.mk 2024 2 1)).1) := by
  decide

theorem first_of_month_valid (y : Int) (m : Nat) (h1 : 1 ≤ m) (h2 : m ≤ 12) :
    (NaiveDate.mk y m 1).Valid :=
  ⟨h1, h2, le_refl 1, monthLen_pos y m h1 h2⟩

theorem next_pair_bounds (y : Int) (m : Nat) (h1 : 1 ≤ m) (h2 : m ≤ 12) :
    1 ≤ (next_month_pair y m).2 ∧ (next_month_pair y m).2 ≤ 12 := by
  by_cases hm : m = 12
  · simp [next_month_pair, hm]
  · simp [next_month_pair, hm]
    omega

theorem prev_pair_bounds (y : Int) (m : Nat) (h1 : 1 ≤ m) (h2 : m ≤ 12) :
    1 ≤ (prev_month_pair y m).2 ∧ (prev_month_pair y m).2 ≤ 12 := by
  by_cases hm : m = 1
  · simp [prev_month_pair, hm]
  · simp [prev_month_pair, hm]
    omega

/-- The month after the month before `m` is `m` itself. -/
theorem next_prev_pair (y : Int) (m : Nat) (h1 : 1 ≤ m) (h2 : m ≤ 12) :
    next_month_pair (prev_month_pair y m).1 (prev_month_pair y m).2 = (y, m) := by
  by_cases hm : m = 1
  · subst hm
    simp [prev_month_pair, next_month_pair]
  · simp [prev_month_pair, next_month_pair, hm, show m - 1 ≠ 12 from by omega]
    omega

/-- C5: in Month mode, page-down moves the cursor to the first day of the
following month and page-up to the first day of the preceding month, both
wrapping across year boundaries, the `from_ymd_opt(...).unwrap()` in
`next_month`/`prev_month` always succeeding; in Year mode both keys leave
the state unchanged.  "First day of the following/preceding month" is
grounded in day numbers: the new cursor has day 1 and sits one day after
the last day of the old month (page-down), resp. one day before the first
day of the old month is the last day of the new cursor's month (page-up). -/
theorem page_keys_month_paging (a : App) (h : a.cursor.Valid) :
    (a.view_mode = ViewMode.Month →
      handleKey KeyCode.pageDown a =
        { a with cursor := NaiveDate.mk (next_month_pair a.cursor.year a.cursor.month).1 (next_month_pair a.cursor.year a.cursor.month).2 1 } ∧
      handleKey KeyCode.pageUp a =
        { a with cursor := NaiveDate.mk (prev_month_pair a.cursor.year a.cursor.month).1 (prev_month_pair a.cursor.year a.cursor.month).2 1 } ∧
      (handleKey KeyCode.pageDown a).cursor.day = 1 ∧
      (handleKey KeyCode.pageUp a).cursor.day = 1 ∧
      (handleKey KeyCode.pageDown a).cursor.Valid ∧
      (handleKey KeyCode.pageUp a).cursor.Valid ∧
      from_ymd_opt (next_month_pair a.cursor.year a.cursor.month).1
        (next_month_pair a.cursor.year a.cursor.month).2 1 =
        some (handleKey KeyCode.pageDown a).cursor ∧
      from_ymd_opt (prev_month_pair a.cursor.year a.cursor.month).1
        (prev_month_pair a.cursor.year a.cursor.month).2 1 =
        some (handleKey KeyCode.pageUp a).cursor ∧
      (handleKey KeyCode.pageDown a).cursor.toRd =
        (last_day_of_month a.cursor.year a.cursor.month).toRd + 1 ∧
      (last_day_of_month (prev_month_pair a.cursor.year a.cursor.month).1
        (prev_month_pair a.cursor.year a.cursor.month).2).toRd + 1 =
        (first_day_of_month a.cursor.year a.cursor.month).toRd ∧
      (a.cursor.month = 12 →
        (handleKey KeyCode.pageDown a).cursor = NaiveDate.mk (a.cursor.year + 1) 1 1) ∧
      (a.cursor.month = 1 →
        (handleKey KeyCode.pageUp a).cursor = NaiveDate.mk (a.cursor.year - 1) 12 1)) ∧
    (a.view_mode = ViewMode.Year →
      handleKey KeyCode.pageUp a = a ∧ handleKey KeyCode.pageDown a = a) := by
  obtain ⟨hm1, hm2, _, _⟩ := h
  constructor
  · intro hv
    have hdown : handleKey KeyCode.pageDown a =
        { a with cursor := NaiveDate.mk (next_month_pair a.cursor.year a.cursor.month).1 (next_month_pair a.cursor.year a.cursor.month).2 1 } := by
      by_cases hm : a.cursor.month = 12 <;>
        simp [handleKey, hv, App.next_month, next_month_pair, hm]
    have hup : handleKey KeyCode.pageUp a =
        { a with cursor := NaiveDate.mk (prev_month_pair a.cursor.year a.cursor.month).1 (prev_month_pair a.cursor.year a.cursor.month).2 1 } := by
      by_cases hm : a.cursor.month = 1 <;>
        simp [handleKey, hv, App.prev_month, prev_month_pair, hm]
    obtain ⟨hn1, hn2⟩ := next_pair_bounds a.cursor.year a.cursor.month hm1 hm2
    obtain ⟨hp1, hp2⟩ := prev_pair_bounds a.cursor.year a.cursor.month hm1 hm2
    have hvnext := first_of_month_valid (next_month_pair a.cursor.year a.cursor.month).1
      (next_month_pair a.cursor.year a.cursor.month).2 hn1 hn2
    have hvprev := first_of_month_valid (prev_month_pair a.cursor.year a.cursor.month).1
      (prev_month_pair a.cursor.year a.cursor.month).2 hp1 hp2
    refine ⟨hdown, hup, by rw [hdown], by rw [hup], by rw [hdown]; exact hvnext,
      by rw [hup]; exact hvprev, ?_, ?_, ?_, ?_, ?_, ?_⟩
    · rw [hdown]
      simp [from_ymd_opt, hvnext]
    · rw [hup]
      simp [from_ymd_opt, hvprev]
    · rw [hdown]
      exact (toRd_last_add_one a.cursor.year a.cursor.month hm1 hm2).symm
    · have hrel := toRd_last_add_one (prev_month_pair a.cursor.year a.cursor.month).1
        (prev_month_pair a.cursor.year a.cursor.month).2 hp1 hp2
      rw [next_prev_pair a.cursor.year a.cursor.month hm1 hm2] at hrel
      exact hrel
    · intro hm
      rw [hdown]
      simp [next_month_pair, hm]
    · intro hm
      rw [hup]
      simp [prev_month_pair, hm]
  · intro hv
    exact ⟨by simp [handleKey, hv], by simp [handleKey, hv]⟩

theorem page_keys_month_paging_witness :
    ((App.mk (fun _ => none) (NaiveDate.mk 2024 12 25) ViewMode.Month false).view_mode =
        ViewMode.Month →
      handleKey KeyCode.pageDown
          (App.mk (fun _ => none) (NaiveDate.mk 2024 12 25) ViewMode.Month false) =
        { App.mk (fun _ => none) (NaiveDate.mk 2024 12 25) ViewMode.Month false with cursor := NaiveDate.mk (next_month_pair (App.mk (fun _ => none) (NaiveDate.mk 2024 12 25) ViewMode.Month false).cursor.year (App.mk (fun _ => none) (NaiveDate.mk 2024 12 25) ViewMode.Month false).cursor.month).1 (next_month_pair (App.mk (fun _ => none) (NaiveDate.mk 2024 12 25) ViewMode.Month false).cursor.year (App.mk (fun _ => none) (NaiveDate.mk 2024 12 25) ViewMode.Month false).cursor.month).2 1 } ∧
      handleKey KeyCode.pageUp
          (App.mk (fun _ => none) (NaiveDate.mk 2024 12 25) ViewMode.Month false) =
        { App.mk (fun _ => none) (NaiveDate.mk 2024 12 25) ViewMode.Month false with cursor := NaiveDate.mk (prev_month_pair (App.mk (fun _ => none) (NaiveDate.mk 2024 12 25) ViewMode.Month false).cursor.year (App.mk (fun _ => none) (NaiveDate.mk 2024 12 25) ViewMode.Month false).cursor.month).1 (prev_month_pair (App.mk (fun _ => none) (NaiveDate.mk 2024 12 25) ViewMode.Month false).cursor.year (App.mk (fun _ => none) (NaiveDate.mk 2024 12 25) ViewMode.Month false).cursor.month).2 1 } ∧
      (handleKey KeyCode.pageDown
        (App.mk (fun _ => none) (NaiveDate.mk 2024 12 25) ViewMode.Month false)).cursor.day = 1 ∧
      (handleKey KeyCode.pageUp
        (App.mk (fun _ => none) (NaiveDate.mk 2024 12 25) ViewMode.Month false)).cursor.day = 1 ∧
      (handleKey KeyCode.pageDown
        (App.mk (fun _ => none) (NaiveDate.mk 2024 12 25) ViewMode.Month false)).cursor.Valid ∧
      (handleKey KeyCode.pageUp
        (App.mk (fun _ => none) (NaiveDate.mk 2024 12 25) ViewMode.Month false)).cursor.Valid ∧
      from_ymd_opt
        (next_month_pair (App.mk (fun _ => none) (NaiveDate.mk 2024 12 25) ViewMode.Month false).cursor.year
          (App.mk (fun _ => none) (NaiveDate.mk 2024 12 25) ViewMode.Month false).cursor.month).1
        (next_month_pair (App.mk (fun _ => none) (NaiveDate.mk 2024 12 25) ViewMode.Month false).cursor.year
          (App.mk (fun _ => none) (NaiveDate.mk 2024 12 25) ViewMode.Month false).cursor.month).2 1 =
        some (handleKey KeyCode.pageDown
          (App.mk (fun _ => none) (NaiveDate.mk 2024 12 25) ViewMode.Month false)).cursor ∧
      from_ymd_opt
        (prev_month_pair (App.mk (fun _ => none) (NaiveDate.mk 2024 12 25) ViewMode.Month false).cursor.year
          (App.mk (fun _ => none) (NaiveDate.mk 2024 12 25) ViewMode.Month false).cursor.month).1
        (prev_month_pair (App.mk (fun _ => none) (NaiveDate.mk 2024 12 25) ViewMode.Month false).cursor.year
          (App.mk (fun _ => none) (NaiveDate.mk 2024 12 25) ViewMode.Month false).cursor.month).2 1 =
        some (handleKey KeyCode.pageUp
          (App.mk (fun _ => none) (NaiveDate.mk 2024 12 25) ViewMode.Month false)).cursor ∧
      (handleKey KeyCode.pageDown
        (App.mk (fun _ => none) (NaiveDate.mk 2024 12 25) ViewMode.Month false)).cursor.toRd =
        (last_day_of_month (App.mk (fun _ => none) (NaiveDate.mk 2024 12 25) ViewMode.Month false).cursor.year
          (App.mk (fun _ => none) (NaiveDate.mk 2024 12 25) ViewMode.Month false).cursor.month).toRd + 1 ∧
      (last_day_of_month
        (prev_month_pair (App.mk (fun _ => none) (NaiveDate.mk 2024 12 25) ViewMode.Month false).cursor.year
          (App.mk (fun _ => none) (NaiveDate.mk 2024 12 25) ViewMode.Month false).cursor.month).1
        (prev_month_pair (App.mk (fun _ => none) (NaiveDate.mk 2024 12 25) ViewMode.Month false).cursor.year
          (App.mk (fun _ => none) (NaiveDate.mk 2024 12 25) ViewMode.Month false).cursor.month).2).toRd + 1 =
        (first_day_of_month (App.mk (fun _ => none) (NaiveDate.mk 2024 12 25) ViewMode.Month false).cursor.year
          (App.mk (fun _ => none) (NaiveDate.mk 2024 12 25) ViewMode.Month false).cursor.month).toRd ∧
      ((App.mk (fun _ => none) (NaiveDate.mk 2024 12 25) ViewMode.Month false).cursor.month = 12 →
        (handleKey KeyCode.pageDown
          (App.mk (fun _ => none) (NaiveDate.mk 2024 12 25) ViewMode.Month false)).cursor =
          NaiveDate.mk ((App.mk (fun _ => none) (NaiveDate.mk 2024 12 25) ViewMode.Month false).cursor.year + 1) 1 1) ∧
      ((App.mk (fun _ => none) (NaiveDate.mk 2024 12 25) ViewMode.Month false).cursor.month = 1 →
        (handleKey KeyCode.pageUp
          (App.mk (fun _ => none) (NaiveDate.mk 2024 12 25) ViewMode.Month false)).cursor =
          NaiveDate.mk ((App.mk (fun _ => none) (NaiveDate.mk 2024 12 25) ViewMode.Month false).cursor.year - 1) 12 1)) ∧
    ((App.mk (fun _ => none) (NaiveDate.mk 2024 12 25) ViewMode.Month false).view_mode =
        ViewMode.Year →
      handleKey KeyCode.pageUp
        (App.mk (fun _ => none) (NaiveDate.mk 2024 12 25) ViewMode.Month false) =
        App.mk (fun _ => none) (NaiveDate.mk 2024 12 25) ViewMode.Month false ∧
      handleKey KeyCode.pageDown
        (App.mk (fun _ => none) (NaiveDate.mk 2024 12 25) ViewMode.Month false) =
        App.mk (fun _ => none) (NaiveDate.mk 2024 12 25) ViewMode.Month false) :=
  page_keys_month_paging (App.mk (fun _ => none) (NaiveDate.mk 2024 12 25) ViewMode.Month false)
    (by decide)

theorem month_view_missing_guard_underflow_witness :
    MonthView.render (fun _ => none) (NaiveDate.mk 2024 3 15) (NaiveDate.mk 2024 3 15)
      (Rect.mk 0 0 20 20) = none :=
  (month_view_missing_guard_underflow (fun _ => none) (NaiveDate.mk 2024 3 15)
    (NaiveDate.mk 2024 3 15) (Rect.mk 0 0 20 20)).1 (by decide)

theorem monthCellWrites_length (data : HabitLog) (today cursor : NaiveDate) (inner : Rect)
    (y : Int) (m : Nat) :
    (monthCellWrites data today cursor inner y m).length = (last_day_of_month y m).day := by
  simp [monthCellWrites]

/-- C9: the year view renders all-or-nothing: with an area narrower than
53*2 = 106 cells or shorter than 8 rows the widget draws nothing at all,
and otherwise it draws the complete grid — one cell write for every day of
the cursor's year (365, or 366 in a leap year). -/
theorem year_view_guard_all_or_nothing (data : HabitLog) (today cursor : NaiveDate)
    (monthInner : Nat → Rect) (area : Rect) :
    (area.width < 53 * 2 ∨ area.height < 8 →
      HabitGraph.render data today cursor monthInner area = []) ∧
    (¬(area.width < 53 * 2 ∨ area.height < 8) →
      HabitGraph.render data today cursor monthInner area =
        render_graph data today cursor monthInner ∧
      (HabitGraph.render data today cursor monthInner area).length =
        (if isLeap cursor.year then 366 else 365)) := by
  constructor
  · intro h
    simp only [HabitGraph.render, if_pos h]
  · intro h
    have hr : HabitGraph.render data today cursor monthInner area =
        render_graph data today cursor monthInner := by
      simp only [HabitGraph.render, if_neg h]
    refine ⟨hr, ?_⟩
    rw [hr]
    have h12 : List.range 12 = [0, 1, 2, 3, 4, 5, 6, 7, 8, 9, 10, 11] := by decide
    rw [render_graph, h12]
    simp only [List.map_cons, List.map_nil, List.flatten_cons, List.flatten_nil,
      List.length_append, List.length_nil, monthCellWrites_length]
    rw [last_day_eq cursor.year 1 (by norm_num) (by norm_num),
      last_day_eq cursor.year 2 (by norm_num) (by norm_num),
      last_day_eq cursor.year 3 (by norm_num) (by norm_num),
      last_day_eq cursor.year 4 (by norm_num) (by norm_num),
      last_day_eq cursor.year 5 (by norm_num) (by norm_num),
      last_day_eq cursor.year 6 (by norm_num) (by norm_num),
      last_day_eq cursor.year 7 (by norm_num) (by norm_num),
      last_day_eq cursor.year 8 (by norm_num) (by norm_num),
      last_day_eq cursor.year 9 (by norm_num) (by norm_num),
      last_day_eq cursor.year 10 (by norm_num) (by norm_num),
      last_day_eq cursor.year 11 (by norm_num) (by norm_num),
      last_day_eq cursor.year 12 (by norm_num) (by norm_num)]
    rcases hb : isLeap cursor.year with _ | _ <;> simp [monthLen, hb]

theorem year_view_guard_all_or_nothing_witness :
    HabitGraph.render (fun _ => none) (NaiveDate.mk 2024 3 15) (NaiveDate.mk 2024 3 15)
      (fun _ => Rect.mk 0 0 0 0) (Rect.mk 0 0 10 10) = [] :=
  (year_view_guard_all_or_nothing (fun _ => none) (NaiveDate.mk 2024 3 15)
    (NaiveDate.mk 2024 3 15) (fun _ => Rect.mk 0 0 0 0) (Rect.mk 0 0 10 10)).1 (by decide)

end HabitTracker
